import Mathlib

/-
Shallow embedding of the Brightwheel feed archiver core
(src/brightwheel_scraper.py): filename derivation and deduplicating
download (download_media), media normalization of the JSON feed
(get_feed's video_info handling), the HTML fallback branch, entry
processing (process_feed_entry), and the per-student scrape loop with
its index write (_scrape_feed_for_student).

Environmental effects are made explicit:
  - Python's per-process string hash (hash(url)) is a parameter pyHash;
  - the wall clock (time.time() / datetime.now()) is a parameter
    (nowUnix / nowDT) of the environment of each call;
  - the network is a function url -> FetchResult;
  - the filesystem and the persisted download history are threaded as a
    DLState value.
All string machinery is defined over List Char so every definition
reduces in the kernel.
-/

/- Character-list helpers standing for the Python string operations the
scraper uses (str.replace, substring membership, urllib.parse.unquote,
urlparse().path, os.path.basename, str.lower). ASCII data only, which is
what the scraper handles. -/

def isPrefixL : List Char → List Char → Bool
  | [], _ => true
  | _ :: _, [] => false
  | a :: as, b :: bs => a = b && isPrefixL as bs

def hasSubL (pat : List Char) : List Char → Bool
  | [] => pat.isEmpty
  | c :: t => isPrefixL pat (c :: t) || hasSubL pat t

/- Fuel-driven replace-all, fuel = length of the subject string; each
step consumes at least one character so the fuel never runs out. Mirrors
Python str.replace (non-overlapping, left to right). -/
def replaceAuxL (pat rep : List Char) : Nat → List Char → List Char
  | 0, s => s
  | _ + 1, [] => []
  | fuel + 1, c :: t =>
    if pat ≠ [] ∧ isPrefixL pat (c :: t) then
      rep ++ replaceAuxL pat rep fuel (List.drop (pat.length - 1) t)
    else
      c :: replaceAuxL pat rep fuel t

def strReplace (s pat rep : String) : String :=
  String.mk (replaceAuxL pat.data rep.data s.data.length s.data)

def strContainsSub (s pat : String) : Bool := hasSubL pat.data s.data

def hexVal (c : Char) : Option Nat :=
  if '0' ≤ c ∧ c ≤ '9' then some (c.toNat - 48)
  else if 'a' ≤ c ∧ c ≤ 'f' then some (c.toNat - 87)
  else if 'A' ≤ c ∧ c ≤ 'F' then some (c.toNat - 55)
  else none

/- urllib.parse.unquote restricted to single-byte escapes (the scraper's
URLs carry no multi-byte percent sequences). -/
def unquoteL : List Char → List Char
  | [] => []
  | '%' :: a :: b :: t =>
    (match hexVal a, hexVal b with
     | some x, some y => Char.ofNat (16 * x + y) :: unquoteL t
     | _, _ => '%' :: unquoteL (a :: b :: t))
  | c :: t => c :: unquoteL t

def dropAfterSubL (pat : List Char) : List Char → List Char
  | [] => []
  | c :: t => if isPrefixL pat (c :: t) then List.drop (pat.length - 1) t else dropAfterSubL pat t

/- urlparse(url).path for the http(s) URLs the feed carries: strip the
fragment and query, then everything through the authority; without a
scheme the remainder is the path (urlparse behaviour on scheme-less
input). -/
def urlPathL (u : List Char) : List Char :=
  let noFrag := u.takeWhile (· ≠ '#')
  let noQuery := noFrag.takeWhile (· ≠ '?')
  if hasSubL "://".data noQuery then
    (dropAfterSubL "://".data noQuery).dropWhile (· ≠ '/')
  else
    noQuery

/- os.path.basename: the segment after the last slash. -/
def basenameL (s : List Char) : List Char :=
  s.foldl (fun acc c => if c = '/' then [] else acc ++ [c]) []

/- The candidate base filename download_media derives from a URL:
os.path.basename(unquote(urlparse(url).path)). -/
def base_candidate (url : String) : String :=
  String.mk (basenameL (unquoteL (urlPathL url.data)))

def lowerChar (c : Char) : Char :=
  if 'A' ≤ c ∧ c ≤ 'Z' then Char.ofNat (c.toNat + 32) else c

def lowerStr (s : String) : String := String.mk (s.data.map lowerChar)

/- Timestamps. datetime values are modelled by their calendar fields;
the strftime patterns the scraper uses are reproduced below. -/

structure DateTime where
  year : Nat
  month : Nat
  day : Nat
  hour : Nat
  minute : Nat
  second : Nat
deriving Repr, DecidableEq

def pad2 (n : Nat) : String := if n < 10 then "0" ++ toString n else toString n

def pad4 (n : Nat) : String :=
  if n < 10 then "000" ++ toString n
  else if n < 100 then "00" ++ toString n
  else if n < 1000 then "0" ++ toString n
  else toString n

/- strftime('%Y-%m-%d-%H-%M') -/
def fmtMinute (d : DateTime) : String :=
  pad4 d.year ++ "-" ++ pad2 d.month ++ "-" ++ pad2 d.day ++ "-" ++ pad2 d.hour ++ "-" ++ pad2 d.minute

/- strftime('%Y-%m-%d-%H-%M-%S') -/
def fmtSecond (d : DateTime) : String := fmtMinute d ++ "-" ++ pad2 d.second

/- datetime.isoformat() (to second precision; fractional part immaterial
to every property below). -/
def fmtIso (d : DateTime) : String :=
  pad4 d.year ++ "-" ++ pad2 d.month ++ "-" ++ pad2 d.day ++ "T" ++ pad2 d.hour ++ ":" ++ pad2 d.minute ++ ":" ++ pad2 d.second

def digit2 (a b : Char) : Option Nat :=
  if a.isDigit ∧ b.isDigit then some ((a.toNat - 48) * 10 + (b.toNat - 48)) else none

def mkDT (y mo d h mi se : Nat) : Option DateTime :=
  if 1 ≤ mo ∧ mo ≤ 12 ∧ 1 ≤ d ∧ d ≤ 31 ∧ h ≤ 23 ∧ mi ≤ 59 ∧ se ≤ 59 then
    some ⟨y, mo, d, h, mi, se⟩
  else none

def isoTail (rest : List Char) : Bool :=
  match rest with
  | [] => true
  | '.' :: _ => true
  | '+' :: _ => true
  | '-' :: _ => true
  | _ => false

/- datetime.fromisoformat on the two shapes the feed emits: a bare date
and a date-time with optional fractional-second / offset tail (the
scraper first rewrites a trailing Z to +00:00). Calendar-day validation
is simplified to 1..31. -/
def parseIsoDate (s : String) : Option DateTime :=
  match s.data with
  | [y1, y2, y3, y4, '-', mo1, mo2, '-', d1, d2] =>
    (match digit2 y1 y2, digit2 y3 y4, digit2 mo1 mo2, digit2 d1 d2 with
     | some hi, some lo, some mo, some d => mkDT (hi * 100 + lo) mo d 0 0 0
     | _, _, _, _ => none)
  | y1 :: y2 :: y3 :: y4 :: '-' :: mo1 :: mo2 :: '-' :: d1 :: d2 :: 'T' :: h1 :: h2 :: ':' :: n1 :: n2 :: ':' :: s1 :: s2 :: rest =>
    if isoTail rest then
      match digit2 y1 y2, digit2 y3 y4, digit2 mo1 mo2, digit2 d1 d2, digit2 h1 h2, digit2 n1 n2, digit2 s1 s2 with
      | some hi, some lo, some mo, some d, some h, some mi, some se => mkDT (hi * 100 + lo) mo d h mi se
      | _, _, _, _, _, _, _ => none
    else none
  | _ => none

/- Environment and effect state of the download manager. -/

inductive FetchResult where
  | ok
  | failConnect
  | failMidwrite
deriving Repr, DecidableEq

/- ok: the streaming fetch completes and the file is written.
failConnect: the request or its status check fails before the
destination file is opened. failMidwrite: a chunk read fails after the
destination file was opened, leaving a partial file on disk. -/

structure Env where
  pyHash : String → Nat
  nowUnix : Nat
  nowDT : DateTime
  net : String → FetchResult

structure DLState where
  downloaded_files : List String := []
  disk : List String := []
  fetchLog : List String := []
deriving Repr, DecidableEq

/- downloaded_files: the in-memory download-history set. disk: the set
of paths that exist in the archive tree. fetchLog: every URL for which a
network fetch was started, in order. -/

def addUrl (url : String) (l : List String) : List String :=
  if url ∈ l then l else l ++ [url]

/- Lines 581-599 of download_media: base filename from the URL path,
synthesized media_{time}_{hash}.{type} name when the basename is empty
or has no dot, then the event-timestamp prefix (falling back to the
current time when no event date is available). -/
def derive_media_filename (env : Env) (url media_type : String) (event_date : Option DateTime) : String :=
  let base0 := base_candidate url
  let base :=
    if base0 = "" ∨ base0.data.contains '.' = false then
      let t := env.nowUnix
      let h := env.pyHash url % 10000
      "media_" ++ toString t ++ "_" ++ toString h ++ "." ++ media_type
    else base0
  let pre :=
    match event_date with
    | some d => fmtMinute d
    | none => fmtMinute env.nowDT
  pre ++ "-" ++ base

/- Lines 579-646: dedup checks in order (destination path on disk, then
URL in history), else a streaming fetch. A completed fetch records the
file, marks the URL downloaded and persists the history; a failure
returns None, never recording the URL; a mid-write failure additionally
leaves the partial file on disk. -/
def download_media (env : Env) (s : DLState) (url media_type : String) (event_date : Option DateTime) (output_dir : String) : Option String × DLState :=
  let name := derive_media_filename env url media_type event_date
  let path := output_dir ++ "/" ++ name
  if path ∈ s.disk then
    (some name, { s with downloaded_files := addUrl url s.downloaded_files })
  else if url ∈ s.downloaded_files then
    (some name, s)
  else
    match env.net url with
    | .ok =>
      (some name,
        { s with disk := path :: s.disk,
                 downloaded_files := addUrl url s.downloaded_files,
                 fetchLog := s.fetchLog ++ [url] })
    | .failConnect => (none, { s with fetchLog := s.fetchLog ++ [url] })
    | .failMidwrite => (none, { s with disk := path :: s.disk, fetchLog := s.fetchLog ++ [url] })

/- Data model of a feed activity. Fields are the keys the scraper
reads; a value of none stands for an absent key. -/

structure VideoInfo where
  streamable_url : Option String := none
  downloadable_url : Option String := none
  thumbnail_url : Option String := none
deriving Repr, DecidableEq

structure Media where
  image_url : Option String := none
  thumbnail_url : Option String := none
  video_url : Option String := none
  video_thumbnail_url : Option String := none
deriving Repr, DecidableEq

structure Actor where
  first_name : Option String := none
  last_name : Option String := none
deriving Repr, DecidableEq

structure Entry where
  object_id : Option String := none
  event_date : Option String := none
  actor : Option Actor := none
  media : Option Media := none
  video_info : Option VideoInfo := none
deriving Repr, DecidableEq

def emptyMedia : Media := {}

/- Python truthiness of an optional string value (absent key or empty
string are both falsy). -/
def optTruthy : Option String → Bool
  | none => false
  | some s => s ≠ ""

/- Python truthiness of the media dict: present with at least one of
the keys the scraper ever reads or writes. -/
def mediaTruthy : Option Media → Bool
  | none => false
  | some m =>
    m.image_url.isSome || m.thumbnail_url.isSome || m.video_url.isSome || m.video_thumbnail_url.isSome

/- json.dumps(entry) over the modelled fields: a canonical serialization
standing for the dict dump the scraper hashes. Its exact spelling is
immaterial; only that it is a function of the entry's content. -/

def dumpOptStr : Option String → String
  | none => "null"
  | some s => "str:" ++ s ++ ";"

def Actor.dumps (a : Actor) : String :=
  "actor(" ++ dumpOptStr a.first_name ++ dumpOptStr a.last_name ++ ")"

def VideoInfo.dumps (v : VideoInfo) : String :=
  "video_info(" ++ dumpOptStr v.streamable_url ++ dumpOptStr v.downloadable_url ++ dumpOptStr v.thumbnail_url ++ ")"

def Media.dumps (m : Media) : String :=
  "media(" ++ dumpOptStr m.image_url ++ dumpOptStr m.thumbnail_url ++ dumpOptStr m.video_url ++ dumpOptStr m.video_thumbnail_url ++ ")"

def dumpOpt (f : α → String) : Option α → String
  | none => "null"
  | some a => f a

def Entry.dumps (e : Entry) : String :=
  "entry(" ++ dumpOptStr e.object_id ++ dumpOptStr e.event_date ++ dumpOpt Actor.dumps e.actor
    ++ dumpOpt Media.dumps e.media ++ dumpOpt VideoInfo.dumps e.video_info ++ ")"

/- Lines 419-457 of get_feed: fold video_info into the media dict.
downloadable_url wins; else an HLS streamable URL has playlist.m3u8
rewritten to video.mp4; else streamable_url verbatim; thumbnail_url, if
present, is always added as video_thumbnail_url. -/
def processVideoInfo (a : Entry) : Entry :=
  match a.video_info with
  | none => a
  | some vi =>
    let streamable_url := vi.streamable_url
    let downloadable_url := vi.downloadable_url
    let thumbnail_url := vi.thumbnail_url
    if optTruthy streamable_url || optTruthy downloadable_url || optTruthy thumbnail_url then
      let m := a.media.getD emptyMedia
      let m :=
        if optTruthy downloadable_url then
          { m with video_url := downloadable_url }
        else if optTruthy streamable_url then
          let su := streamable_url.getD ""
          if strContainsSub su "playlist.m3u8" then
            { m with video_url := some (strReplace su "playlist.m3u8" "video.mp4") }
          else
            { m with video_url := streamable_url }
        else m
      let m :=
        if optTruthy thumbnail_url then { m with video_thumbnail_url := thumbnail_url } else m
      { a with media := some m }
    else a

/- Minimal HTML document model for the two BeautifulSoup queries the
scraper performs: a node has a tag name, attributes and children. -/

mutual
inductive HNode where
  | el (name : String) (attrs : List (String × String)) (children : HForest)
  | txt (s : String)
inductive HForest where
  | nil
  | cons (h : HNode) (t : HForest)
end

def attrVal (attrs : List (String × String)) (k : String) : Option String :=
  (attrs.find? (fun p => p.1 = k)).map (fun p => p.2)

def splitClassesL (s : List Char) : List (List Char) :=
  (s.foldr (fun c acc =>
    match acc with
    | [] => if c = ' ' then [] else [[c]]
    | w :: ws => if c = ' ' then [] :: w :: ws else (c :: w) :: ws) []).filter (· ≠ [])

def hasClass (attrs : List (String × String)) (c : String) : Bool :=
  (splitClassesL ((attrVal attrs "class").getD "").data).contains c.data

/- select_one('.next-page, .load-more, .pagination a.next'): first match
in document order; the flag records whether an ancestor carries the
pagination class. -/
mutual
def nodeNextMatch (inPag : Bool) : HNode → Option HNode
  | .el n a c =>
    if hasClass a "next-page" || hasClass a "load-more" || (inPag && n = "a" && hasClass a "next") then
      some (.el n a c)
    else
      forestNextMatch (inPag || hasClass a "pagination") c
  | .txt _ => none
def forestNextMatch (inPag : Bool) : HForest → Option HNode
  | .nil => none
  | .cons h t =>
    match nodeNextMatch inPag h with
    | some r => some r
    | none => forestNextMatch inPag t
end

/- Boolean existence form of the same selector, used as the
specification-side predicate for a next-page affordance. -/
mutual
def nodeHasNext (inPag : Bool) : HNode → Bool
  | .el n a c =>
    hasClass a "next-page" || hasClass a "load-more" || (inPag && n = "a" && hasClass a "next")
      || forestHasNext (inPag || hasClass a "pagination") c
  | .txt _ => false
def forestHasNext (inPag : Bool) : HForest → Bool
  | .nil => false
  | .cons h t => nodeHasNext inPag h || forestHasNext inPag t
end

/- find_all('div', class_='video-react-poster') with 'background-image'
in the style attribute: the HTML branch of get_feed builds an entry per
such poster, but the entry id expression str(uuid.uuid4()) references a
uuid module the script never imports, so the first poster raises
NameError and the enclosing handler makes get_feed return None. -/
mutual
def nodePosterCrash : HNode → Bool
  | .el n a c =>
    (n = "div" && hasClass a "video-react-poster"
      && strContainsSub ((attrVal a "style").getD "") "background-image")
      || forestPosterCrash c
  | .txt _ => false
def forestPosterCrash : HForest → Bool
  | .nil => false
  | .cons h t => nodePosterCrash h || forestPosterCrash t
end

/- has_more of the unused helper _parse_feed_html (lines 571-574):
true iff select_one for the next-page selector returns a node. -/
def parse_feed_html_has_more (doc : HForest) : Bool :=
  (forestNextMatch false doc).isSome

/- The transformed page get_feed hands to its caller: the dict literal
it returns has exactly the keys entries and has_more, so count is
recorded as absent. -/
structure FeedData where
  entries : List Entry
  has_more : Bool
  count : Option Nat
deriving Repr

/- One JSON response of the activities endpoint (the keys get_feed
reads; a none field stands for an absent key). -/
structure ApiResponse where
  activities : List Entry := []
  count : Option Nat := none
  page : Option Nat := none
  page_size : Option Nat := none
deriving Repr

inductive FeedHttp where
  | json (r : ApiResponse)
  | html (doc : HForest)
  | err

/- Lines 408-493 of get_feed: a JSON response is transformed (video_info
folded into media) and has_more computed as count > page * page_size
with the dict defaults 0, 1 and 10; an HTML response yields no entries
and has_more False, except that any video poster triggers the NameError
path and a None return; a failed request returns None. -/
def get_feed : FeedHttp → Option FeedData
  | .json r =>
    some { entries := r.activities.map processVideoInfo,
           has_more := decide (r.count.getD 0 > r.page.getD 1 * r.page_size.getD 10),
           count := none }
  | .html doc =>
    if forestPosterCrash doc then none
    else some { entries := [], has_more := false, count := none }
  | .err => none

/- Persisted records. -/

structure DownloadRecord where
  filename : String
  original_url : String
  type : String
  url_type : String
deriving Repr, DecidableEq

structure ProcessedEntry where
  id : String
  original_data : Entry
  processed_timestamp : String
  downloaded_media : List DownloadRecord
deriving Repr, DecidableEq

/- Line 652: entry.get('object_id', str(hash(json.dumps(entry)) % 10000)). -/
def entryId (pyHash : String → Nat) (e : Entry) : String :=
  match e.object_id with
  | some i => i
  | none => toString (pyHash e.dumps % 10000)

/- Lines 655-662: parse event_date, falling back to the current time on
a parse failure; an absent key leaves the date None. -/
def entryEventDate (env : Env) (e : Entry) : Option DateTime :=
  match e.event_date with
  | none => none
  | some ds =>
    match parseIsoDate (strReplace ds "Z" "+00:00") with
    | some d => some d
    | none => some env.nowDT

/- Lines 720-727: the per-entry JSON filename
{timestamp}-{first_lower}-{last_lower}-{id}.json. -/
def entryFileName (env : Env) (e : Entry) : String :=
  let event_date := entryEventDate env e
  let actor := e.actor.getD {}
  let first_name := actor.first_name.getD "unknown"
  let last_name := actor.last_name.getD "unknown"
  let ts :=
    match event_date with
    | some d => fmtSecond d
    | none => fmtSecond env.nowDT
  ts ++ "-" ++ lowerStr first_name ++ "-" ++ lowerStr last_name ++ "-" ++ entryId env.pyHash e ++ ".json"

/- One media reference inside process_feed_entry: download if the URL
key is present and truthy, append a record only on success. -/
def tryDownload (env : Env) (acc : List DownloadRecord × DLState) (url : Option String) (mtype : String) (event_date : Option DateTime) (dir : String) (url_type : String) : List DownloadRecord × DLState :=
  match url with
  | none => acc
  | some u =>
    if u = "" then acc
    else
      match download_media env acc.2 u mtype event_date dir with
      | (some fn, s') => (acc.1 ++ [⟨fn, u, mtype, url_type⟩], s')
      | (none, s') => (acc.1, s')

/- Lines 650-733, process_feed_entry: derive the id and event date,
download image_url and thumbnail_url to the images directory, then the
video thumbnail and the video, collecting records only for successful
downloads, and write the ProcessedEntry JSON file unconditionally. -/
def process_feed_entry (env : Env) (entry : Entry) (child_feeds_dir child_images_dir child_videos_dir : String) (s : DLState) : ProcessedEntry × DLState :=
  let entry_id := entryId env.pyHash entry
  let event_date := entryEventDate env entry
  let dl :=
    if mediaTruthy entry.media then
      let m := entry.media.getD emptyMedia
      let a1 := tryDownload env ([], s) m.image_url "image" event_date child_images_dir "image_url"
      let a2 := tryDownload env a1 m.thumbnail_url "image" event_date child_images_dir "thumbnail_url"
      let a3 := tryDownload env a2 m.video_thumbnail_url "image" event_date child_images_dir "video_thumbnail_url"
      tryDownload env a3 m.video_url "video" event_date child_videos_dir "video_url"
    else ([], s)
  let processed : ProcessedEntry :=
    { id := entry_id,
      original_data := entry,
      processed_timestamp := fmtIso env.nowDT,
      downloaded_media := dl.1 }
  let entry_path := child_feeds_dir ++ "/" ++ entryFileName env entry
  (processed, { dl.2 with disk := entry_path :: dl.2.disk })

/- The per-student index written in the finally block of
_scrape_feed_for_student (lines 786-797). -/
structure SubjectIndex where
  student_id : String
  student_name : String
  total_entries_scraped : Nat
  total_entries_available : Option Nat
  pages_scraped : Nat
  scraped_date : String
  entries : List ProcessedEntry
deriving Repr, DecidableEq

/- The inner for-loop over one page's entries (lines 766-773), with a
KeyboardInterrupt modelled as a budget of entries processed before the
signal arrives: when the budget is exhausted and another entry is about
to be processed, control jumps out to the finally block. Returns the
accumulated entries, the remaining budget, the state, and whether the
interrupt fired. -/
def runEntries (env : Env) (child_feeds_dir child_images_dir child_videos_dir : String) :
    List Entry → Option Nat → List ProcessedEntry → DLState → (List ProcessedEntry × Option Nat × DLState × Bool)
  | [], budget, acc, s => (acc, budget, s, false)
  | e :: rest, budget, acc, s =>
    if budget = some 0 then (acc, budget, s, true)
    else
      let r := process_feed_entry env e child_feeds_dir child_images_dir child_videos_dir s
      runEntries env child_feeds_dir child_images_dir child_videos_dir rest
        (budget.map (· - 1)) (acc ++ [r.1]) r.2

/- The page while-loop (lines 752-780). The scripted list holds the
successive responses of the activities endpoint starting at page 1; an
exhausted script behaves like a failed fetch (get_feed returning None,
hence the break on no valid feed data). Returns the accumulated
entries, the final value of the page counter, and the state. -/
def scrapePages (env : Env) (child_feeds_dir child_images_dir child_videos_dir : String) :
    List FeedHttp → Nat → Option Nat → Bool → Option Nat → List ProcessedEntry → DLState → (List ProcessedEntry × Nat × DLState)
  | _, page, _, false, _, acc, s => (acc, page, s)
  | [], page, _, true, _, acc, s => (acc, page, s)
  | r :: rest, page, maxPages, true, budget, acc, s =>
    let overMax := match maxPages with | some m => decide (page > m) | none => false
    if overMax then (acc, page, s)
    else
      match get_feed r with
      | none => (acc, page, s)
      | some fd =>
        if fd.entries = [] then (acc, page, s)
        else
          let res := runEntries env child_feeds_dir child_images_dir child_videos_dir fd.entries budget acc s
          if res.2.2.2 then (res.1, page, res.2.2.1)
          else scrapePages env child_feeds_dir child_images_dir child_videos_dir rest (page + 1) maxPages fd.has_more res.2.1 res.1 res.2.2.1

/- Lines 735-805, _scrape_feed_for_student: a first page-1 fetch to read
a total count (from the transformed dict get_feed returns, whose count
key is absent), the page loop, and the finally block writing the
SubjectIndex with whatever was accumulated. -/
def scrape_feed_for_student (env : Env) (resps : List FeedHttp) (student_id student_name : String) (child_feeds_dir child_images_dir child_videos_dir : String) (maxPages budget : Option Nat) (s : DLState) : SubjectIndex × DLState :=
  let total_entries : Option Nat :=
    match resps.head? with
    | none => none
    | some r =>
      match get_feed r with
      | some fd => some (fd.count.getD 0)
      | none => none
  let res := scrapePages env child_feeds_dir child_images_dir child_videos_dir resps 1 maxPages true budget [] s
  let idx : SubjectIndex :=
    { student_id := student_id,
      student_name := student_name,
      total_entries_scraped := res.1.length,
      total_entries_available := total_entries,
      pages_scraped := res.2.1 - 1,
      scraped_date := fmtIso env.nowDT,
      entries := res.1 }
  (idx, { res.2.2 with disk := (child_feeds_dir ++ "/feed_index.json") :: res.2.2.disk })

/- Lines 132-140, _load_download_history: the in-memory set starts
empty; a present, readable history file replaces it; a present but
unreadable or unparsable file only logs a warning (the Bool below) and
leaves the set empty. The argument is none when no history file exists,
some none when it exists but cannot be read or parsed, and some (some
urls) when it parses. -/
def load_download_history (file : Option (Option (List String))) : List String × Bool :=
  match file with
  | none => ([], false)
  | some none => ([], true)
  | some (some urls) => (urls, false)

/- Concrete fixtures used by the closed theorems below. hash0 is one
possible per-process string hash; two Env values that differ only in
the clock model two calls made at different times (or in different
runs). -/

def hash0 : String → Nat := fun _ => 0

def dtMay : DateTime := ⟨2024, 5, 1, 10, 0, 0⟩

def nowDT0 : DateTime := ⟨2025, 1, 2, 3, 4, 5⟩

def envOk0 : Env := { pyHash := hash0, nowUnix := 0, nowDT := nowDT0, net := fun _ => .ok }

def envOk1 : Env := { envOk0 with nowUnix := 1 }

def envMid0 : Env := { envOk0 with net := fun _ => .failMidwrite }

/- A URL whose path has no final segment with an extension, so
download_media synthesizes the media_{time}_{hash} name for it. -/
def urlNoExt : String := "https://cdn.example.com/item"

def dmCall0 : Option String × DLState := download_media envOk0 {} urlNoExt "image" (some dtMay) "img"

def dmCall1 : Option String × DLState := download_media envOk1 dmCall0.2 urlNoExt "image" (some dtMay) "img"

/- A markup document carrying a next-page affordance, to exhibit the
divergence between get_feed's markup branch and the helper. -/
def c3doc : HForest := .cons (.el "div" [("class", "next-page")] .nil) .nil

/- A scripted JSON feed for the spec's pagination instance:
total_count = 30, page_size = 10, one (trivial) entry per page; a
fourth page is scripted to show the loop never requests it. -/
def pgResp (i : Nat) : FeedHttp :=
  .json { activities := [{ object_id := some ("p" ++ toString i) }],
          count := some 30, page := some i, page_size := some 10 }

def c5run : SubjectIndex :=
  (scrape_feed_for_student envOk0 [pgResp 1, pgResp 2, pgResp 3, pgResp 4]
     "sid" "Student" "feeds" "img" "vid" none none {}).1

/- The spec's two video_info instances. -/
def viBoth : VideoInfo :=
  { downloadable_url := some "https://x/d.mp4", streamable_url := some "https://x/playlist.m3u8" }

def viHls : VideoInfo := { streamable_url := some "https://x/a/playlist.m3u8" }

def entryBoth : Entry := { video_info := some viBoth }

def entryHls : Entry := { video_info := some viHls }

/- The fixture of the spec's failure scenario: the image fetch fails
with a connection error, the video fetch succeeds. -/
def envC8 : Env :=
  { pyHash := hash0, nowUnix := 0, nowDT := nowDT0,
    net := fun u => if u = "https://x/bad.jpg" then .failConnect else .ok }

def eC8 : Entry :=
  { object_id := some "e1", event_date := some "2024-05-01T10:00:00Z",
    actor := some { first_name := some "Ann", last_name := some "Lee" },
    media := some { image_url := some "https://x/bad.jpg", video_url := some "https://x/good.mp4" } }

/- The spec's partial-run scenario: one JSON page carrying count = 5
and five entries, with the interrupt arriving after two entries have
been processed. -/
def c2entry (i : String) : Entry := { object_id := some i }

def c2resp : FeedHttp :=
  .json { activities := [c2entry "a", c2entry "b", c2entry "c", c2entry "d", c2entry "e"],
          count := some 5, page := some 1, page_size := some 10 }

def c2run : SubjectIndex :=
  (scrape_feed_for_student envOk0 [c2resp] "sid" "Student" "feeds" "img" "vid" none (some 2) {}).1

/- Helper lemmas. -/

theorem mem_addUrl_self (url : String) (l : List String) : url ∈ addUrl url l := by
  unfold addUrl
  by_cases h : url ∈ l
  · simp [h]
  · simp [h]

/- When the URL's decoded basename is non-empty and carries a dot, the
derived filename does not depend on the environment (clock, hash) of
the call, provided an event timestamp is supplied. -/
theorem derive_media_filename_indep (env env' : Env) (url media_type : String) (d : DateTime)
    (h : ¬(base_candidate url = "" ∨ (base_candidate url).data.contains '.' = false)) :
    derive_media_filename env url media_type (some d)
      = derive_media_filename env' url media_type (some d) := by
  simp only [derive_media_filename, if_neg h]

/- A deduplicated call (URL already in history, or destination path
already on disk) starts no fetch and returns the derived filename. -/
theorem download_media_no_fetch (env : Env) (s : DLState) (url media_type : String) (d : Option DateTime) (dir : String)
    (h : url ∈ s.downloaded_files ∨ (dir ++ "/" ++ derive_media_filename env url media_type d) ∈ s.disk) :
    (download_media env s url media_type d dir).1 = some (derive_media_filename env url media_type d)
    ∧ (download_media env s url media_type d dir).2.fetchLog = s.fetchLog := by
  unfold download_media
  by_cases hp : (dir ++ "/" ++ derive_media_filename env url media_type d) ∈ s.disk
  · simp [hp]
  · have hu : url ∈ s.downloaded_files := h.resolve_right hp
    simp [hp, hu]

/- Any successful call leaves the URL recorded in the history set. -/
theorem download_media_some_mem (env : Env) (s : DLState) (url media_type : String) (d : Option DateTime) (dir : String)
    (h : (download_media env s url media_type d dir).1.isSome = true) :
    url ∈ (download_media env s url media_type d dir).2.downloaded_files := by
  unfold download_media at *
  by_cases hp : (dir ++ "/" ++ derive_media_filename env url media_type d) ∈ s.disk
  · simpa [hp] using mem_addUrl_self url s.downloaded_files
  · by_cases hu : url ∈ s.downloaded_files
    · simp [hp, hu]
    · rcases hnet : env.net url with _ | _ | _ <;> simp [hp, hu, hnet] at h ⊢
      exact mem_addUrl_self url s.downloaded_files

/-- C4: the claim asserts that the filename derivation is a function of
(event_timestamp, url) alone, including in the synthesized-name case.
It is not: the synthesized name embeds int(time.time()) and the
per-process hash(url), so two calls with identical inputs made at
different clock values produce different filenames. -/
theorem c4_filename_determinism_counterexample :
    derive_media_filename envOk0 "https://x/" "image" (some dtMay)
      ≠ derive_media_filename envOk1 "https://x/" "image" (some dtMay) := by decide

/-- C4 amended: for every (event_timestamp, url) input pair whose URL
has a non-empty decoded final path segment containing a dot, any two
calls to the filename derivation produce the identical filename,
whatever the clock value or hash seed of each call; in the synthesized
case the name is media_{unix_time}_{hash mod 10000}.{kind} with the
current time and per-process hash, so it is not stable across calls. -/
theorem c4_filename_determinism_amended (env env' : Env) (url media_type : String) (d : DateTime)
    (h : ¬(base_candidate url = "" ∨ (base_candidate url).data.contains '.' = false)) :
    derive_media_filename env url media_type (some d)
      = derive_media_filename env' url media_type (some d) :=
  derive_media_filename_indep env env' url media_type d h

/-- C4 witness: the amended determinism at the spec's concrete input. -/
theorem c4_filename_determinism_amended_witness :
    ¬(base_candidate "https://x/d.mp4" = "" ∨ (base_candidate "https://x/d.mp4").data.contains '.' = false)
    ∧ derive_media_filename envOk0 "https://x/d.mp4" "image" (some dtMay)
      = derive_media_filename envOk1 "https://x/d.mp4" "image" (some dtMay) :=
  ⟨by decide, c4_filename_determinism_amended envOk0 envOk1 "https://x/d.mp4" "image" dtMay (by decide)⟩

/-- C1: the claim asserts that a call whose URL is already in the
download history (or whose derived path exists) performs no fetch and
returns the same filename as a prior successful call with the same
(event_timestamp, url) inputs. The no-fetch half holds, but the
same-filename half fails: after a successful first call at clock 0 on a
URL with no usable basename, a second call at clock 1 finds the URL in
history, fetches nothing, yet returns a different synthesized filename. -/
theorem c1_idempotent_download_counterexample :
    dmCall0.1.isSome = true
    ∧ urlNoExt ∈ dmCall0.2.downloaded_files
    ∧ dmCall1.2.fetchLog = dmCall0.2.fetchLog
    ∧ dmCall1.1.isSome = true
    ∧ dmCall1.1 ≠ dmCall0.1 := by decide

/-- C1 amended: a call whose URL is in history or whose derived
destination path exists performs no network fetch and returns the
currently derived filename; every successful call records the URL in
the history set (so a URL is fetched at most once while the history
survives); and the derived filename agrees with that of any prior call
with the same (event_timestamp, url) whenever the URL's decoded final
path segment is non-empty and contains a dot — for synthesized names it
may differ between calls. -/
theorem c1_idempotent_download_amended :
    (∀ (env : Env) (s : DLState) (url media_type : String) (d : Option DateTime) (dir : String),
      url ∈ s.downloaded_files ∨ (dir ++ "/" ++ derive_media_filename env url media_type d) ∈ s.disk →
        (download_media env s url media_type d dir).1 = some (derive_media_filename env url media_type d)
        ∧ (download_media env s url media_type d dir).2.fetchLog = s.fetchLog)
    ∧ (∀ (env : Env) (s : DLState) (url media_type : String) (d : Option DateTime) (dir : String),
        (download_media env s url media_type d dir).1.isSome = true →
          url ∈ (download_media env s url media_type d dir).2.downloaded_files)
    ∧ (∀ (env env' : Env) (url media_type : String) (d : DateTime),
        ¬(base_candidate url = "" ∨ (base_candidate url).data.contains '.' = false) →
          derive_media_filename env url media_type (some d)
            = derive_media_filename env' url media_type (some d)) :=
  ⟨download_media_no_fetch, download_media_some_mem, derive_media_filename_indep⟩

/-- C1 witness: a URL already in history is returned without a fetch. -/
theorem c1_idempotent_download_amended_witness :
    (download_media envOk0 { downloaded_files := ["https://x/d.mp4"] } "https://x/d.mp4" "image" (some dtMay) "img").1
      = some (derive_media_filename envOk0 "https://x/d.mp4" "image" (some dtMay))
    ∧ (download_media envOk0 { downloaded_files := ["https://x/d.mp4"] } "https://x/d.mp4" "image" (some dtMay) "img").2.fetchLog
      = ({ downloaded_files := ["https://x/d.mp4"] } : DLState).fetchLog :=
  c1_idempotent_download_amended.1 envOk0 { downloaded_files := ["https://x/d.mp4"] }
    "https://x/d.mp4" "image" (some dtMay) "img" (Or.inl (by decide))

/-- C9: the claim asserts that after a mid-stream failure the partial
file makes every later call for the same (url, event_timestamp) take
the path-exists branch without re-fetching. The partial file does
remain, but for a URL with no usable basename the later call derives a
different path (the synthesized name embeds the clock), misses the
partial file, finds the URL absent from history (failures record
nothing) and fetches again. -/
theorem c9_midwrite_refetch_counterexample :
    (download_media envMid0 {} urlNoExt "image" (some dtMay) "img").1 = none
    ∧ ("img/" ++ derive_media_filename envMid0 urlNoExt "image" (some dtMay))
        ∈ (download_media envMid0 {} urlNoExt "image" (some dtMay) "img").2.disk
    ∧ (download_media envOk1 (download_media envMid0 {} urlNoExt "image" (some dtMay) "img").2
        urlNoExt "image" (some dtMay) "img").2.fetchLog
      ≠ (download_media envMid0 {} urlNoExt "image" (some dtMay) "img").2.fetchLog := by decide

/-- C9 amended: for a URL whose decoded basename is non-empty and
contains a dot, a mid-write failure returns None, leaves the partial
file at the derived path and records nothing in history; any subsequent
call with the same (url, event_timestamp) then takes the path-exists
branch: it returns the (identical) derived filename, marks the URL
downloaded, starts no fetch and leaves the disk — hence the truncated
file — untouched. -/
theorem c9_midwrite_amended (env env' : Env) (s : DLState) (url media_type : String) (d : DateTime) (dir : String)
    (hg : ¬(base_candidate url = "" ∨ (base_candidate url).data.contains '.' = false))
    (hnet : env.net url = .failMidwrite)
    (hd : (dir ++ "/" ++ derive_media_filename env url media_type (some d)) ∉ s.disk)
    (hh : url ∉ s.downloaded_files) :
    (download_media env s url media_type (some d) dir).1 = none
    ∧ (dir ++ "/" ++ derive_media_filename env url media_type (some d))
        ∈ (download_media env s url media_type (some d) dir).2.disk
    ∧ url ∉ (download_media env s url media_type (some d) dir).2.downloaded_files
    ∧ (download_media env' (download_media env s url media_type (some d) dir).2 url media_type (some d) dir).1
        = some (derive_media_filename env' url media_type (some d))
    ∧ url ∈ (download_media env' (download_media env s url media_type (some d) dir).2 url media_type (some d) dir).2.downloaded_files
    ∧ (download_media env' (download_media env s url media_type (some d) dir).2 url media_type (some d) dir).2.fetchLog
        = (download_media env s url media_type (some d) dir).2.fetchLog
    ∧ (download_media env' (download_media env s url media_type (some d) dir).2 url media_type (some d) dir).2.disk
        = (download_media env s url media_type (some d) dir).2.disk := by
  have hpath : derive_media_filename env' url media_type (some d)
      = derive_media_filename env url media_type (some d) :=
    derive_media_filename_indep env' env url media_type d hg
  have h1 : download_media env s url media_type (some d) dir
      = (none, { s with disk := (dir ++ "/" ++ derive_media_filename env url media_type (some d)) :: s.disk,
                        fetchLog := s.fetchLog ++ [url] }) := by
    unfold download_media
    simp [hd, hh, hnet]
  rw [h1]
  refine ⟨rfl, by simp, by simpa using hh, ?_, ?_, ?_, ?_⟩
  · unfold download_media
    simp [hpath]
  · unfold download_media
    simpa [hpath] using mem_addUrl_self url s.downloaded_files
  · unfold download_media
    simp [hpath]
  · unfold download_media
    simp [hpath]

/-- C9 witness: the amended behaviour at a concrete URL with a usable
basename, one mid-write failure followed by one dedup call. -/
theorem c9_midwrite_amended_witness :
    (download_media envMid0 {} "https://x/v.mp4" "video" (some dtMay) "vid").1 = none
    ∧ ("vid/" ++ derive_media_filename envMid0 "https://x/v.mp4" "video" (some dtMay))
        ∈ (download_media envMid0 {} "https://x/v.mp4" "video" (some dtMay) "vid").2.disk
    ∧ "https://x/v.mp4" ∉ (download_media envMid0 {} "https://x/v.mp4" "video" (some dtMay) "vid").2.downloaded_files
    ∧ (download_media envOk1 (download_media envMid0 {} "https://x/v.mp4" "video" (some dtMay) "vid").2 "https://x/v.mp4" "video" (some dtMay) "vid").1
        = some (derive_media_filename envOk1 "https://x/v.mp4" "video" (some dtMay))
    ∧ "https://x/v.mp4" ∈ (download_media envOk1 (download_media envMid0 {} "https://x/v.mp4" "video" (some dtMay) "vid").2 "https://x/v.mp4" "video" (some dtMay) "vid").2.downloaded_files
    ∧ (download_media envOk1 (download_media envMid0 {} "https://x/v.mp4" "video" (some dtMay) "vid").2 "https://x/v.mp4" "video" (some dtMay) "vid").2.fetchLog
        = (download_media envMid0 {} "https://x/v.mp4" "video" (some dtMay) "vid").2.fetchLog
    ∧ (download_media envOk1 (download_media envMid0 {} "https://x/v.mp4" "video" (some dtMay) "vid").2 "https://x/v.mp4" "video" (some dtMay) "vid").2.disk
        = (download_media envMid0 {} "https://x/v.mp4" "video" (some dtMay) "vid").2.disk :=
  c9_midwrite_amended envMid0 envOk1 {} "https://x/v.mp4" "video" dtMay "vid"
    (by decide) rfl (by decide) (by decide)

/- The select_one-based truthiness check of _parse_feed_html agrees
with plain existence of a matching element. -/

mutual
theorem nodeNextMatch_isSome (b : Bool) (h : HNode) :
    (nodeNextMatch b h).isSome = nodeHasNext b h := by
  cases h with
  | txt s => rfl
  | el n a c =>
    rw [nodeNextMatch, nodeHasNext]
    by_cases hc : (hasClass a "next-page" || hasClass a "load-more" || (b && n = "a" && hasClass a "next")) = true
    · simp [hc]
    · simp only [Bool.not_eq_true] at hc
      simp [hc, forestNextMatch_isSome (b || hasClass a "pagination") c]
theorem forestNextMatch_isSome (b : Bool) (f : HForest) :
    (forestNextMatch b f).isSome = forestHasNext b f := by
  cases f with
  | nil => rfl
  | cons h t =>
    rw [forestNextMatch, forestHasNext]
    cases hm : nodeNextMatch b h with
    | some r =>
      have := nodeNextMatch_isSome b h
      rw [hm] at this
      simp [← this]
    | none =>
      have := nodeNextMatch_isSome b h
      rw [hm] at this
      simp [← this, forestNextMatch_isSome b t]
end

/-- C3: the claim asserts that for every markup feed payload the
returned page's has_more is true iff a next-page affordance is present.
False: get_feed's markup branch hardcodes has_more to False, so a
document containing a next-page element (which the affordance selector
of the unused helper _parse_feed_html does match) still comes back with
has_more = false. -/
theorem c3_markup_has_more_counterexample :
    parse_feed_html_has_more c3doc = true
    ∧ (get_feed (.html c3doc)).map FeedData.has_more = some false := by decide

/-- C3 amended: every markup payload for which get_feed returns a page
at all yields has_more = false, affordance or not; the
affordance-iff rule is implemented only in the helper _parse_feed_html,
which no caller invokes, where has_more is the truthiness of the
select_one result and agrees with existence of a matching element. -/
theorem c3_markup_has_more_amended :
    (∀ doc fd, get_feed (.html doc) = some fd → fd.has_more = false)
    ∧ (∀ doc, parse_feed_html_has_more doc = forestHasNext false doc) := by
  constructor
  · intro doc fd h
    rw [get_feed] at h
    by_cases hp : forestPosterCrash doc = true
    · simp [hp] at h
    · simp only [Bool.not_eq_true] at hp
      simp only [hp, Bool.false_eq_true, if_false] at h
      cases h
      rfl
  · intro doc
    rw [parse_feed_html_has_more, forestNextMatch_isSome]

/-- C3 witness: the amended statement applied to a concrete markup
document (a next link nested under a pagination element). -/
theorem c3_markup_has_more_amended_witness :
    ({ entries := [], has_more := false, count := none } : FeedData).has_more = false :=
  c3_markup_has_more_amended.1
    (.cons (.el "div" [("class", "pagination")] (.cons (.el "a" [("class", "next")] .nil) .nil)) .nil)
    { entries := [], has_more := false, count := none } rfl

/-- C5: for every JSON feed payload the page's has_more flag equals
count > page * page_size (with the dict-lookup defaults 0, 1 and 10);
and on the spec's instance (count 30, page_size 10) the scrape loop
consumes pages 1, 2 and 3, then stops: pages_scraped is 3 and exactly
the three pages' entries were processed, even though a fourth page is
scripted. -/
theorem c5_json_has_more_pagination :
    (∀ r fd, get_feed (.json r) = some fd →
      (fd.has_more = true ↔ r.count.getD 0 > r.page.getD 1 * r.page_size.getD 10))
    ∧ c5run.pages_scraped = 3
    ∧ c5run.total_entries_scraped = 3
    ∧ c5run.entries.map ProcessedEntry.id = ["p1", "p2", "p3"] := by
  refine ⟨?_, by decide, by decide, by decide⟩
  intro r fd h
  rw [get_feed] at h
  cases h
  simp

/-- C5 witness: the has_more formula applied to the page-1 response of
the spec's instance. -/
theorem c5_json_has_more_pagination_witness :
    (({ entries := [{ object_id := some "p1" }], has_more := true, count := none } : FeedData).has_more = true
      ↔ (some 30 : Option Nat).getD 0 > (some 1 : Option Nat).getD 1 * (some 10 : Option Nat).getD 10) :=
  c5_json_has_more_pagination.1
    { activities := [{ object_id := some "p1" }], count := some 30, page := some 1, page_size := some 10 }
    { entries := [{ object_id := some "p1" }], has_more := true, count := none } rfl

/-- C6: video reference resolution from video_info follows first-match
precedence — downloadable_url when truthy; else a streamable_url
containing playlist.m3u8 with that substring replaced by video.mp4;
else streamable_url verbatim — and on the spec's two instances a
payload with both URLs resolves to https://x/d.mp4 while a payload with
only streamable https://x/a/playlist.m3u8 resolves to
https://x/a/video.mp4. -/
theorem c6_video_precedence :
    (∀ (a : Entry) (vi : VideoInfo), a.video_info = some vi →
      optTruthy vi.downloadable_url = true →
      ((processVideoInfo a).media.getD emptyMedia).video_url = vi.downloadable_url)
    ∧ (∀ (a : Entry) (vi : VideoInfo) (su : String), a.video_info = some vi →
        optTruthy vi.downloadable_url = false → vi.streamable_url = some su → su ≠ "" →
        strContainsSub su "playlist.m3u8" = true →
        ((processVideoInfo a).media.getD emptyMedia).video_url
          = some (strReplace su "playlist.m3u8" "video.mp4"))
    ∧ (∀ (a : Entry) (vi : VideoInfo) (su : String), a.video_info = some vi →
        optTruthy vi.downloadable_url = false → vi.streamable_url = some su → su ≠ "" →
        strContainsSub su "playlist.m3u8" = false →
        ((processVideoInfo a).media.getD emptyMedia).video_url = some su)
    ∧ ((processVideoInfo entryBoth).media.getD emptyMedia).video_url = some "https://x/d.mp4"
    ∧ ((processVideoInfo entryHls).media.getD emptyMedia).video_url = some "https://x/a/video.mp4" := by
  refine ⟨?_, ?_, ?_, by decide, by decide⟩
  · intro a vi hvi hdl
    rw [processVideoInfo, hvi]
    simp only [hdl]
    by_cases ht : optTruthy vi.thumbnail_url = true <;> simp [ht]
  · intro a vi su hvi hdl hsu hne hct
    rw [processVideoInfo, hvi]
    simp_all [optTruthy, apply_ite]
    split <;> rfl
  · intro a vi su hvi hdl hsu hne hct
    rw [processVideoInfo, hvi]
    simp_all [optTruthy, apply_ite]
    split <;> rfl

/-- C6 witness: the downloadable_url precedence applied to the spec's
concrete payload. -/
theorem c6_video_precedence_witness :
    ((processVideoInfo entryBoth).media.getD emptyMedia).video_url = viBoth.downloadable_url :=
  c6_video_precedence.1 entryBoth viBoth rfl (by decide)

/- The decimal representation of a natural number is never the empty
string (needed for the non-emptiness of the fallback id). -/

theorem toDigitsCore_len_ge (b : Nat) :
    ∀ (f n : Nat) (l : List Char), l.length ≤ (Nat.toDigitsCore b f n l).length := by
  intro f
  induction f with
  | zero => intro n l; simp [Nat.toDigitsCore]
  | succ f ih =>
    intro n l
    rw [Nat.toDigitsCore]
    split
    · simp
    · exact le_trans (by simp) (ih _ _)

theorem toString_nat_ne_empty (n : Nat) : toString n ≠ "" := by
  intro hc
  have hdata : (Nat.toDigitsCore 10 (n + 1) n []).length = 0 := by
    have h1 := congrArg String.data hc
    have h2 := congrArg List.length h1
    simpa [toString, Nat.repr, Nat.toDigits, List.asString] using h2
  have h1 : 1 ≤ (Nat.toDigitsCore 10 (n + 1) n []).length := by
    rw [Nat.toDigitsCore]
    split
    · simp
    · simpa using toDigitsCore_len_ge 10 n (n / 10) [Nat.digitChar (n % 10)]
  omega

/-- C7: an entry lacking a server id receives the fallback id
str(hash(json.dumps(entry)) mod 10000): within one process (one hash
function) it is a deterministic function of the entry's serialized
content, it is never empty, and it is exactly the id stored in the
ProcessedEntry that process_feed_entry builds. -/
theorem c7_fallback_id :
    (∀ (pyHash : String → Nat) (e1 e2 : Entry), e1.object_id = none → e2.object_id = none →
      e1.dumps = e2.dumps → entryId pyHash e1 = entryId pyHash e2)
    ∧ (∀ (pyHash : String → Nat) (e : Entry), e.object_id = none → entryId pyHash e ≠ "")
    ∧ (∀ (env : Env) (e : Entry) (fd id vd : String) (s : DLState),
        (process_feed_entry env e fd id vd s).1.id = entryId env.pyHash e) := by
  refine ⟨?_, ?_, ?_⟩
  · intro pyHash e1 e2 h1 h2 hc
    rw [entryId, entryId, h1, h2, hc]
  · intro pyHash e h
    rw [entryId, h]
    exact toString_nat_ne_empty _
  · intro env e fd id vd s
    rfl

/-- C7 witness: two identical content-only entries (no object_id) get
equal, non-empty fallback ids under a concrete hash function. -/
theorem c7_fallback_id_witness :
    entryId String.length ({ event_date := some "2024-05-01T10:00:00Z" } : Entry)
      = entryId String.length ({ event_date := some "2024-05-01T10:00:00Z" } : Entry)
    ∧ entryId String.length ({ event_date := some "2024-05-01T10:00:00Z" } : Entry) ≠ "" :=
  ⟨c7_fallback_id.1 String.length _ _ rfl rfl rfl,
   c7_fallback_id.2.1 String.length { event_date := some "2024-05-01T10:00:00Z" } rfl⟩

/- Failed downloads record nothing in the history and return None
(provided the call was not already deduplicated). -/
theorem download_media_fail (env : Env) (s : DLState) (url media_type : String) (d : Option DateTime) (dir : String)
    (hnet : env.net url ≠ .ok)
    (hd : (dir ++ "/" ++ derive_media_filename env url media_type d) ∉ s.disk)
    (hh : url ∉ s.downloaded_files) :
    (download_media env s url media_type d dir).1 = none
    ∧ (download_media env s url media_type d dir).2.downloaded_files = s.downloaded_files := by
  unfold download_media
  rcases hn : env.net url with _ | _ | _
  · exact absurd hn hnet
  · simp [hd, hh, hn]
  · simp [hd, hh, hn]

/-- C8: a failed media fetch is contained: the URL is not recorded in
the download history and the call returns None; the owning entry's
JSON file is written for every entry and state whatsoever; and on the
concrete two-reference entry whose image fetch fails, the ProcessedEntry
carries only the video record, the failed URL stays out of the history
while the successful one enters it, the failed fetch was attempted (so
processing reached and passed it), and the entry file is on disk. -/
theorem c8_download_failure_contained :
    (∀ (env : Env) (s : DLState) (url media_type : String) (d : Option DateTime) (dir : String),
      env.net url ≠ .ok →
      (dir ++ "/" ++ derive_media_filename env url media_type d) ∉ s.disk →
      url ∉ s.downloaded_files →
      (download_media env s url media_type d dir).1 = none
      ∧ (download_media env s url media_type d dir).2.downloaded_files = s.downloaded_files)
    ∧ (∀ (env : Env) (e : Entry) (fd id vd : String) (s : DLState),
        (fd ++ "/" ++ entryFileName env e) ∈ (process_feed_entry env e fd id vd s).2.disk)
    ∧ (process_feed_entry envC8 eC8 "feeds" "img" "vid" {}).1.downloaded_media.map DownloadRecord.original_url
        = ["https://x/good.mp4"]
    ∧ "https://x/bad.jpg" ∉ (process_feed_entry envC8 eC8 "feeds" "img" "vid" {}).2.downloaded_files
    ∧ "https://x/good.mp4" ∈ (process_feed_entry envC8 eC8 "feeds" "img" "vid" {}).2.downloaded_files
    ∧ "https://x/bad.jpg" ∈ (process_feed_entry envC8 eC8 "feeds" "img" "vid" {}).2.fetchLog
    ∧ ("feeds/" ++ entryFileName envC8 eC8) ∈ (process_feed_entry envC8 eC8 "feeds" "img" "vid" {}).2.disk := by
  refine ⟨download_media_fail, ?_, by decide, by decide, by decide, by decide, by decide⟩
  intro env e fd id vd s
  exact List.mem_cons_self _ _

/-- C8 witness: containment of the failed image fetch of the concrete
scenario, starting from the empty state. -/
theorem c8_download_failure_contained_witness :
    (download_media envC8 {} "https://x/bad.jpg" "image" (some dtMay) "img").1 = none
    ∧ (download_media envC8 {} "https://x/bad.jpg" "image" (some dtMay) "img").2.downloaded_files
      = ({} : DLState).downloaded_files :=
  c8_download_failure_contained.1 envC8 {} "https://x/bad.jpg" "image" (some dtMay) "img"
    (by decide) (by decide) (by decide)

/-- C10: a download_history.json that exists but cannot be read or
parsed only produces a warning and an empty in-memory history set (the
loader is total: no abort path); and with an empty history set a
download call starts a network fetch exactly when the derived
destination path is absent from disk, i.e. the at-most-once guarantee
then rests solely on the path-existence check. -/
theorem c10_corrupt_history :
    load_download_history (some none) = ([], true)
    ∧ (∀ (env : Env) (s : DLState) (url media_type : String) (d : Option DateTime) (dir : String),
        s.downloaded_files = [] →
        ((download_media env s url media_type d dir).2.fetchLog ≠ s.fetchLog
          ↔ (dir ++ "/" ++ derive_media_filename env url media_type d) ∉ s.disk)) := by
  refine ⟨rfl, ?_⟩
  intro env s url media_type d dir hs
  unfold download_media
  by_cases hp : (dir ++ "/" ++ derive_media_filename env url media_type d) ∈ s.disk
  · simp [hp]
  · have hu : url ∉ s.downloaded_files := by simp [hs]
    rcases hn : env.net url with _ | _ | _ <;> simp [hp, hu, hn]

/-- C10 witness: with an empty history and empty disk, a concrete call
does start a fetch. -/
theorem c10_corrupt_history_witness :
    ((download_media envOk0 {} "https://x/d.mp4" "image" (some dtMay) "img").2.fetchLog
        ≠ ({} : DLState).fetchLog
      ↔ ("img/" ++ derive_media_filename envOk0 "https://x/d.mp4" "image" (some dtMay))
          ∉ ({} : DLState).disk) :=
  c10_corrupt_history.2 envOk0 {} "https://x/d.mp4" "image" (some dtMay) "img" rfl

/-- C2: interrupting after 2 of 5 available entries does leave an index
with scraped_count = 2 containing exactly those two ProcessedEntry
records and no partial one — but the recorded available_count is 0,
not 5: get_feed returns a transformed dict holding only entries and
has_more, so the caller's feed_data.get('count', 0) never sees the
response's count. The code contradicts its own intent (its comment
assumes count is still in the response, and the index field is meant to
hold the total available for the progress report), making
available_count = n unattainable. -/
theorem c2_partial_index_code_behavior :
    c2run.total_entries_scraped = 2
    ∧ c2run.entries.map ProcessedEntry.id = ["a", "b"]
    ∧ c2run.entries.length = 2
    ∧ c2run.total_entries_available = some 0
    ∧ c2run.total_entries_available ≠ some 5 := by decide
